import Mathlib

/-!
Verification of the `rbd::MultiBody` kinematic-tree data structure
(`src/MultiBody.h` of RBDyn) against its natural-language specification.

Modelling conventions:
* `std::vector<T>` is `List T`; `std::size_t` is `Nat`; C++ `int` is `Int`
  (theorems restrict it to the 32-bit range where the conversion matters).
* `v.at(num)` / `v[num]` take `std::vector::size_type`; passing an `int`
  converts it to `size_t` by reduction modulo 2^64 (`toSizeT`).  `at` out of
  range throws `std::out_of_range`; `operator[]` out of range is undefined
  behavior, modelled as `Option.none`.
* `std::unordered_map<int,int>` is an association list `List (Int × Int)`;
  `m[k] = v` is `mapInsert` (overwrites an existing key), `m.at(k)` is
  `mapAt` (throws `std::out_of_range` when the key is absent) and
  `m.find(k)->second` is `mapFind` (undefined behavior when absent,
  modelled as `Option.none`).
* `Body`, `Joint` and `sva::PTransform` are opaque value types; only the
  fields this header reads (`id`, `params`, `dof`) are modelled, and
  `PTransform` is a token carrying no structure.
* Exceptions are modelled with `Except`.  Every checked accessor of this
  header throws the single C++ type `std::out_of_range`
  (`RBDynError.stdOutOfRange`); the construction-time failure kind named by
  the specification is `RBDynError.structuralMismatch`.
-/

/-- Opaque body value type: only its integer id is read by `MultiBody.h`. -/
structure Body where
  id : Int
deriving DecidableEq

/-- Opaque joint value type: `MultiBody.h` reads its id, its parameter count
and its degree-of-freedom count. -/
structure Joint where
  id : Int
  params : Int
  dof : Int
deriving DecidableEq

/-- Opaque spatial-transform value type (`sva::PTransform`): a token. -/
structure PTransform where
  tag : Nat
deriving DecidableEq

/-- Error kinds observable from the modelled code: `stdOutOfRange` is the
C++ exception `std::out_of_range` thrown by `std::vector::at` and
`std::unordered_map::at`; `structuralMismatch` is the construction-failure
kind of the specification. -/
inductive RBDynError where
  | stdOutOfRange
  | structuralMismatch
deriving DecidableEq

/-- Conversion of a C++ `int` argument to `std::vector::size_type`
(`size_t`, 64 bits): reduction modulo 2^64. -/
def toSizeT (n : Int) : Nat := (n % (2 : Int) ^ 64).toNat

/-- Model of `v.at(num)` for `std::vector` with an `int` argument: the index is
converted to `size_t`; out of range throws `std::out_of_range`. -/
def atInt (l : List α) (num : Int) : Except RBDynError α :=
  match l.get? (toSizeT num) with
  | some x => Except.ok x
  | none => Except.error RBDynError.stdOutOfRange

/-- Model of `v[num]` for `std::vector` with an `int` argument: no bounds check, so
out of range is undefined behavior, modelled as `none`. -/
def idxInt (l : List α) (num : Int) : Option α :=
  l.get? (toSizeT num)

/-- Lookup in the association list modelling `std::unordered_map<int,int>`. -/
def mapFind (m : List (Int × Int)) (k : Int) : Option Int :=
  match m with
  | [] => none
  | (k', v') :: rest => if k' = k then some v' else mapFind rest k

/-- Model of `m[k] = v` on `std::unordered_map<int,int>`: overwrites the entry of an
existing key, appends a fresh entry otherwise. -/
def mapInsert (m : List (Int × Int)) (k v : Int) : List (Int × Int) :=
  match m with
  | [] => [(k, v)]
  | (k', v') :: rest =>
      if k' = k then (k, v) :: rest else (k', v') :: mapInsert rest k v

/-- Model of `m.at(k)` on `std::unordered_map<int,int>`: throws `std::out_of_range`
when the key is absent. -/
def mapAt (m : List (Int × Int)) (k : Int) : Except RBDynError Int :=
  match mapFind m k with
  | some v => Except.ok v
  | none => Except.error RBDynError.stdOutOfRange

deriving instance DecidableEq for Except

/-- The private state of `rbd::MultiBody` (`MultiBody.h`, lines 253-269). -/
structure MultiBody where
  bodies_ : List Body
  joints_ : List Joint
  pred_ : List Int
  succ_ : List Int
  parent_ : List Int
  Xfrom_ : List PTransform
  Xto_ : List PTransform
  bodyId2Ind_ : List (Int × Int)
  jointId2Ind_ : List (Int × Int)
  nrParams_ : Int
  nrDof_ : Int
deriving DecidableEq

namespace MultiBody

/-- Model of `nrBodies()`: `bodies_.size()`. -/
def nrBodies (mb : MultiBody) : Nat := mb.bodies_.length

/-- Model of `nrJoints()`: `joints_.size()`. -/
def nrJoints (mb : MultiBody) : Nat := mb.joints_.length

/-- Model of `bodies()`: read-only view of the body sequence. -/
def bodies (mb : MultiBody) : List Body := mb.bodies_

/-- Model of `body(num)`: unchecked `bodies_[num]`. -/
def body (mb : MultiBody) (num : Int) : Option Body := idxInt mb.bodies_ num

/-- Model of `joints()`: read-only view of the joint sequence. -/
def joints (mb : MultiBody) : List Joint := mb.joints_

/-- Model of `joint(num)`: unchecked `joints_[num]`. -/
def joint (mb : MultiBody) (num : Int) : Option Joint := idxInt mb.joints_ num

/-- Model of `predecessors()`: read-only view of the predecessor indices. -/
def predecessors (mb : MultiBody) : List Int := mb.pred_

/-- Model of `predecessor(num)`: unchecked `pred_[num]`. -/
def predecessor (mb : MultiBody) (num : Int) : Option Int := idxInt mb.pred_ num

/-- Model of `successors()`: read-only view of the successor indices. -/
def successors (mb : MultiBody) : List Int := mb.succ_

/-- Model of `successor(num)`: unchecked `succ_[num]`. -/
def successor (mb : MultiBody) (num : Int) : Option Int := idxInt mb.succ_ num

/-- Model of `parents()`: read-only view of the parent indices. -/
def parents (mb : MultiBody) : List Int := mb.parent_

/-- Model of `parent(num)`: unchecked `parent_[num]`. -/
def parent (mb : MultiBody) (num : Int) : Option Int := idxInt mb.parent_ num

/-- Model of `transformsFrom()`: read-only view of the `Xfrom_` transforms. -/
def transformsFrom (mb : MultiBody) : List PTransform := mb.Xfrom_

/-- Model of `transformFrom(num)`: unchecked `Xfrom_[num]`. -/
def transformFrom (mb : MultiBody) (num : Int) : Option PTransform :=
  idxInt mb.Xfrom_ num

/-- Model of `transformsTo()`: read-only view of the `Xto_` transforms. -/
def transformsTo (mb : MultiBody) : List PTransform := mb.Xto_

/-- Model of `transformTo(num)`: unchecked `Xto_[num]`. -/
def transformTo (mb : MultiBody) (num : Int) : Option PTransform :=
  idxInt mb.Xto_ num

/-- Model of `bodyIndexById(id)`: `bodyId2Ind_.find(id)->second`, undefined behavior
(modelled `none`) when the id is absent. -/
def bodyIndexById (mb : MultiBody) (id : Int) : Option Int :=
  mapFind mb.bodyId2Ind_ id

/-- Model of `jointIndexById(id)`: `jointId2Ind_.find(id)->second`, undefined
behavior (modelled `none`) when the id is absent. -/
def jointIndexById (mb : MultiBody) (id : Int) : Option Int :=
  mapFind mb.jointId2Ind_ id

/-- Model of `nrParams()`: the precomputed field. -/
def nrParams (mb : MultiBody) : Int := mb.nrParams_

/-- Model of `nrDof()`: the precomputed field. -/
def nrDof (mb : MultiBody) : Int := mb.nrDof_

/-- Model of `sBody(num)`: `bodies_.at(num)`. -/
def sBody (mb : MultiBody) (num : Int) : Except RBDynError Body :=
  atInt mb.bodies_ num

/-- Model of `sJoint(num)`: `joints_.at(num)`. -/
def sJoint (mb : MultiBody) (num : Int) : Except RBDynError Joint :=
  atInt mb.joints_ num

/-- Model of `sPredecessor(num)`: `pred_.at(num)`. -/
def sPredecessor (mb : MultiBody) (num : Int) : Except RBDynError Int :=
  atInt mb.pred_ num

/-- Model of `sSuccessor(num)`: `succ_.at(num)`. -/
def sSuccessor (mb : MultiBody) (num : Int) : Except RBDynError Int :=
  atInt mb.succ_ num

/-- Model of `sParent(num)`: `parent_.at(num)`. -/
def sParent (mb : MultiBody) (num : Int) : Except RBDynError Int :=
  atInt mb.parent_ num

/-- Model of `sTransformFrom(num)`: `Xfrom_.at(num)`. -/
def sTransformFrom (mb : MultiBody) (num : Int) : Except RBDynError PTransform :=
  atInt mb.Xfrom_ num

/-- Model of `sTransformTo(num)`: `Xto_.at(num)`. -/
def sTransformTo (mb : MultiBody) (num : Int) : Except RBDynError PTransform :=
  atInt mb.Xto_ num

/-- Model of `sBodyIndexById(id)`: `bodyId2Ind_.at(id)`. -/
def sBodyIndexById (mb : MultiBody) (id : Int) : Except RBDynError Int :=
  mapAt mb.bodyId2Ind_ id

/-- Model of `sJointIndexById(id)`: `jointId2Ind_.at(id)`. -/
def sJointIndexById (mb : MultiBody) (id : Int) : Except RBDynError Int :=
  mapAt mb.jointId2Ind_ id

/-- Size sanity of a C++ object: every stored `std::vector` is strictly
shorter than 2^63 elements (any real vector is, since the address space is
64 bits).  Hypothesis of the theorems that rely on the `int` to `size_t`
conversion being injective on in-range indices. -/
def sizesOK (mb : MultiBody) : Prop :=
  mb.bodies_.length < 2 ^ 63 ∧ mb.joints_.length < 2 ^ 63 ∧
  mb.pred_.length < 2 ^ 63 ∧ mb.succ_.length < 2 ^ 63 ∧
  mb.parent_.length < 2 ^ 63 ∧ mb.Xfrom_.length < 2 ^ 63 ∧
  mb.Xto_.length < 2 ^ 63

instance (mb : MultiBody) : Decidable mb.sizesOK := by
  unfold sizesOK; infer_instance

end MultiBody

/-- Insertion loop of the id-to-index tables: for each element of `ids`, at
running index `start`, perform `m[id] = start` (so a duplicate id
overwrites the entry written by an earlier iteration). -/
def insertAll (m : List (Int × Int)) (ids : List Int) (start : Nat) :
    List (Int × Int) :=
  match ids with
  | [] => m
  | id :: rest => insertAll (mapInsert m id (start : Int)) rest (start + 1)

/-- The id-to-index table built from the id sequence `ids`. -/
def buildTable (ids : List Int) : List (Int × Int) := insertAll [] ids 0

/-- Length consistency demanded by the specification of the constructor:
`bodies.size() == parent.size()` and
`joints.size() == pred.size() == succ.size() == Xfrom.size() == Xto.size()`. -/
def lengthsOK (bodies : List Body) (joints : List Joint)
    (pred succ parent : List Int) (Xfrom Xto : List PTransform) : Prop :=
  bodies.length = parent.length ∧ joints.length = pred.length ∧
  joints.length = succ.length ∧ joints.length = Xfrom.length ∧
  joints.length = Xto.length

instance (bodies : List Body) (joints : List Joint)
    (pred succ parent : List Int) (Xfrom Xto : List PTransform) :
    Decidable (lengthsOK bodies joints pred succ parent Xfrom Xto) := by
  unfold lengthsOK; infer_instance

/-- Modelled from the spec: the body of the constructor
`MultiBody::MultiBody` is defined in `MultiBody.cpp`, which is not part of
the available sources (the header only declares it).  Following the
specification's words: it validates the length invariants
(`bodies.size() == parent.size()`;
`joints.size() == pred.size() == succ.size() == Xfrom.size() == Xto.size()`)
and fails with a `StructuralMismatch` error if they are violated; it builds
the id-to-index tables by iterating bodies and joints once each, a later
duplicate id silently overwriting the entry of an earlier one (the
reference behavior, per the specification's failure note and open
question); it computes `nrParams`/`nrDof` by summing the per-joint fields;
and it stores all sequences.  No other validation is performed. -/
def mkMultiBody (bodies : List Body) (joints : List Joint)
    (pred succ parent : List Int) (Xfrom Xto : List PTransform) :
    Except RBDynError MultiBody :=
  if lengthsOK bodies joints pred succ parent Xfrom Xto then
    Except.ok
      { bodies_ := bodies
        joints_ := joints
        pred_ := pred
        succ_ := succ
        parent_ := parent
        Xfrom_ := Xfrom
        Xto_ := Xto
        bodyId2Ind_ := buildTable (bodies.map Body.id)
        jointId2Ind_ := buildTable (joints.map Joint.id)
        nrParams_ := (joints.map Joint.params).sum
        nrDof_ := (joints.map Joint.dof).sum }
  else Except.error RBDynError.structuralMismatch

/-! ### Helper lemmas -/

theorem toSizeT_of_nonneg (n : Int) (h0 : 0 ≤ n) (h1 : n < 2 ^ 64) :
    toSizeT n = n.toNat := by
  unfold toSizeT
  rw [Int.emod_eq_of_lt h0 (by norm_num at h1 ⊢; exact h1)]

theorem toSizeT_neg_ge (n : Int) (h0 : -(2 ^ 31) ≤ n) (h1 : n < 0) :
    2 ^ 64 - 2 ^ 31 ≤ toSizeT n := by
  unfold toSizeT
  omega

theorem atInt_ok_of_lt (l : List α) (num : Int) (h : toSizeT num < l.length) :
    atInt l num = Except.ok (l.get ⟨toSizeT num, h⟩) := by
  unfold atInt
  rw [List.get?_eq_get h]

theorem atInt_err_of_ge (l : List α) (num : Int) (h : l.length ≤ toSizeT num) :
    atInt l num = Except.error RBDynError.stdOutOfRange := by
  unfold atInt
  rw [List.get?_eq_none.2 h]

theorem idxInt_some_of_lt (l : List α) (num : Int) (h : toSizeT num < l.length) :
    idxInt l num = some (l.get ⟨toSizeT num, h⟩) := by
  unfold idxInt
  rw [List.get?_eq_get h]

theorem mapFind_mapInsert_self (m : List (Int × Int)) (k v : Int) :
    mapFind (mapInsert m k v) k = some v := by
  induction m with
  | nil => simp [mapInsert, mapFind]
  | cons p rest ih =>
      by_cases h : p.1 = k
      · simp [mapInsert, mapFind, h]
      · simp [mapInsert, mapFind, h, ih]

theorem mapFind_mapInsert_ne (m : List (Int × Int)) (k v k' : Int)
    (h : k' ≠ k) : mapFind (mapInsert m k v) k' = mapFind m k' := by
  induction m with
  | nil => simp [mapInsert, mapFind, Ne.symm h]
  | cons p rest ih =>
      by_cases hp : p.1 = k
      · subst hp
        simp [mapInsert, mapFind, Ne.symm h]
      · by_cases hp' : p.1 = k'
        · simp [mapInsert, mapFind, hp, hp', h]
        · simp [mapInsert, mapFind, hp, hp', ih]

theorem insertAll_find_of_not_mem (m : List (Int × Int)) (ids : List Int)
    (start : Nat) (d : Int) (h : d ∉ ids) :
    mapFind (insertAll m ids start) d = mapFind m d := by
  induction ids generalizing m start with
  | nil => rfl
  | cons a rest ih =>
      have hd : d ≠ a := fun he => h (he ▸ List.mem_cons_self a rest)
      have hrest : d ∉ rest := fun hm => h (List.mem_cons_of_mem a hm)
      rw [insertAll, ih _ _ hrest, mapFind_mapInsert_ne _ _ _ _ hd]

theorem insertAll_find_last (m : List (Int × Int)) (ids : List Int)
    (start : Nat) (d : Int) (j : Nat) (hj : j < ids.length)
    (hd : ids.get ⟨j, hj⟩ = d)
    (hlast : ∀ k (hk : k < ids.length), j < k → ids.get ⟨k, hk⟩ ≠ d) :
    mapFind (insertAll m ids start) d = some ((start : Int) + j) := by
  induction ids generalizing m start j with
  | nil => exact absurd hj (Nat.not_lt_zero j)
  | cons a rest ih =>
      cases j with
      | zero =>
          have ha : a = d := hd
          have hnot : d ∉ rest := by
            intro hm
            obtain ⟨⟨k, hk⟩, hkd⟩ := List.mem_iff_get.1 hm
            exact hlast (k + 1) (by simpa using Nat.succ_lt_succ hk)
              (Nat.succ_pos k) (by simpa using hkd)
          rw [insertAll, insertAll_find_of_not_mem _ _ _ _ hnot, ha,
            mapFind_mapInsert_self]
          simp
      | succ j' =>
          have hj' : j' < rest.length := Nat.lt_of_succ_lt_succ hj
          have hd' : rest.get ⟨j', hj'⟩ = d := hd
          have hlast' : ∀ k (hk : k < rest.length), j' < k →
              rest.get ⟨k, hk⟩ ≠ d := by
            intro k hk hjk
            have := hlast (k + 1) (by simpa using Nat.succ_lt_succ hk)
              (Nat.succ_lt_succ hjk)
            simpa using this
          rw [insertAll, ih _ _ j' hj' hd' hlast']
          congr 1
          push_cast
          ring

theorem insertAll_find_nodup (m : List (Int × Int)) (ids : List Int)
    (start : Nat) (i : Nat) (hi : i < ids.length) (hnd : ids.Nodup) :
    mapFind (insertAll m ids start) (ids.get ⟨i, hi⟩) =
      some ((start : Int) + i) := by
  refine insertAll_find_last m ids start _ i hi rfl ?_
  intro k hk hik he
  have h2 := List.nodup_iff_injective_get.1 hnd he
  have h3 : k = i := congrArg Fin.val h2
  omega

theorem length_le_toSizeT (len : Nat) (num : Int)
    (hlo : -(2 ^ 31) ≤ num) (hhi : num < 2 ^ 31) (hlen : len < 2 ^ 63)
    (h : num < 0 ∨ (len : Int) ≤ num) : len ≤ toSizeT num := by
  unfold toSizeT
  omega

theorem toSizeT_natCast (i : Nat) (hi : i < 2 ^ 63) : toSizeT (i : Int) = i := by
  unfold toSizeT
  omega

theorem idxInt_natCast (l : List α) (i : Nat) (hl : l.length < 2 ^ 63)
    (h : i < l.length) : idxInt l (i : Int) = some (l.get ⟨i, h⟩) := by
  unfold idxInt
  rw [toSizeT_natCast i (Nat.lt_trans h hl), List.get?_eq_get h]

theorem atInt_natCast (l : List α) (i : Nat) (hl : l.length < 2 ^ 63)
    (h : i < l.length) : atInt l (i : Int) = Except.ok (l.get ⟨i, h⟩) := by
  unfold atInt
  rw [toSizeT_natCast i (Nat.lt_trans h hl), List.get?_eq_get h]

/-! ### A concrete instance (end-to-end scenario 1 of the specification) -/

def exBodies : List Body := [⟨10⟩, ⟨20⟩, ⟨30⟩]

def exJoints : List Joint := [⟨100, 1, 1⟩, ⟨101, 1, 1⟩]

def exPred : List Int := [0, 0]

def exSucc : List Int := [0, 1]

def exParent : List Int := [-1, 0, 0]

def exXfrom : List PTransform := [⟨0⟩, ⟨1⟩]

def exXto : List PTransform := [⟨2⟩, ⟨3⟩]

/-- The MultiBody built by the constructor from scenario 1's arrays. -/
def exMB : MultiBody :=
  { bodies_ := exBodies
    joints_ := exJoints
    pred_ := exPred
    succ_ := exSucc
    parent_ := exParent
    Xfrom_ := exXfrom
    Xto_ := exXto
    bodyId2Ind_ := buildTable (exBodies.map Body.id)
    jointId2Ind_ := buildTable (exJoints.map Joint.id)
    nrParams_ := 2
    nrDof_ := 2 }

/-! ### Claims about construction (constructor modelled from the spec) -/

/-- Claim C1: for every valid construction, `nrParams()` equals the sum of
the `params` field over the input joint sequence and `nrDof()` equals the
sum of the `dof` field over the input joint sequence. -/
theorem nrParams_nrDof_eq_sums (bodies : List Body) (joints : List Joint)
    (pred succ parent : List Int) (Xfrom Xto : List PTransform)
    (mb : MultiBody)
    (h : mkMultiBody bodies joints pred succ parent Xfrom Xto = Except.ok mb) :
    mb.nrParams = (joints.map Joint.params).sum ∧
    mb.nrDof = (joints.map Joint.dof).sum := by
  rw [mkMultiBody] at h
  split at h
  · injection h with h
    rw [← h]
    exact ⟨rfl, rfl⟩
  · exact absurd h (by simp)

theorem nrParams_nrDof_eq_sums_witness :
    mkMultiBody exBodies exJoints exPred exSucc exParent exXfrom exXto =
      Except.ok exMB ∧
    exMB.nrParams = (exJoints.map Joint.params).sum ∧
    exMB.nrDof = (exJoints.map Joint.dof).sum :=
  ⟨by decide,
   nrParams_nrDof_eq_sums exBodies exJoints exPred exSucc exParent exXfrom
     exXto exMB (by decide)⟩

/-- Claim C2: for every valid construction (in particular the ids are unique
within each collection, data-model invariant 4), every body's id resolves via
`sBodyIndexById` to the index the body occupied in the input sequence, and
every joint's id resolves via `sJointIndexById` to its input index. -/
theorem indexById_of_construction (bodies : List Body) (joints : List Joint)
    (pred succ parent : List Int) (Xfrom Xto : List PTransform)
    (mb : MultiBody)
    (h : mkMultiBody bodies joints pred succ parent Xfrom Xto = Except.ok mb)
    (hbnd : (bodies.map Body.id).Nodup) (hjnd : (joints.map Joint.id).Nodup) :
    (∀ i (hi : i < bodies.length),
        mb.sBodyIndexById (bodies.get ⟨i, hi⟩).id = Except.ok (i : Int)) ∧
    (∀ i (hi : i < joints.length),
        mb.sJointIndexById (joints.get ⟨i, hi⟩).id = Except.ok (i : Int)) := by
  rw [mkMultiBody] at h
  split at h
  case isFalse => exact absurd h (by simp)
  case isTrue =>
      injection h with h
      constructor
      · intro i hi
        have hi' : i < (bodies.map Body.id).length := by simpa using hi
        have hget : (bodies.map Body.id).get ⟨i, hi'⟩ =
            (bodies.get ⟨i, hi⟩).id := by
          simp
        have hfind := insertAll_find_nodup [] (bodies.map Body.id) 0 i hi' hbnd
        rw [hget] at hfind
        rw [← h]
        show mapAt (buildTable (bodies.map Body.id)) _ = _
        rw [mapAt, buildTable, hfind]
        simp
      · intro i hi
        have hi' : i < (joints.map Joint.id).length := by simpa using hi
        have hget : (joints.map Joint.id).get ⟨i, hi'⟩ =
            (joints.get ⟨i, hi⟩).id := by
          simp
        have hfind := insertAll_find_nodup [] (joints.map Joint.id) 0 i hi' hjnd
        rw [hget] at hfind
        rw [← h]
        show mapAt (buildTable (joints.map Joint.id)) _ = _
        rw [mapAt, buildTable, hfind]
        simp

theorem indexById_of_construction_witness :
    (exBodies.map Body.id).Nodup ∧ (exJoints.map Joint.id).Nodup ∧
    exMB.sBodyIndexById 20 = Except.ok 1 ∧
    exMB.sJointIndexById 101 = Except.ok 1 :=
  ⟨by decide, by decide,
   (indexById_of_construction exBodies exJoints exPred exSucc exParent exXfrom
       exXto exMB (by decide) (by decide) (by decide)).1 1 (by decide),
   (indexById_of_construction exBodies exJoints exPred exSucc exParent exXfrom
       exXto exMB (by decide) (by decide) (by decide)).2 1 (by decide)⟩

/-- Claim C6: constructing from sequences whose lengths violate the
length-consistency invariants fails with the `StructuralMismatch` error, and
no MultiBody instance is produced. -/
theorem mkMultiBody_mismatch (bodies : List Body) (joints : List Joint)
    (pred succ parent : List Int) (Xfrom Xto : List PTransform)
    (h : ¬ lengthsOK bodies joints pred succ parent Xfrom Xto) :
    mkMultiBody bodies joints pred succ parent Xfrom Xto =
      Except.error RBDynError.structuralMismatch ∧
    ∀ mb : MultiBody,
      mkMultiBody bodies joints pred succ parent Xfrom Xto ≠ Except.ok mb := by
  rw [mkMultiBody, if_neg h]
  exact ⟨rfl, fun mb hc => by exact absurd hc (by simp)⟩

theorem mkMultiBody_mismatch_witness :
    ¬ lengthsOK exBodies exJoints exPred exSucc [-1, 0] exXfrom exXto ∧
    mkMultiBody exBodies exJoints exPred exSucc [-1, 0] exXfrom exXto =
      Except.error RBDynError.structuralMismatch :=
  ⟨by decide,
   (mkMultiBody_mismatch exBodies exJoints exPred exSucc [-1, 0] exXfrom exXto
     (by decide)).1⟩

/-! ### Claim C8: duplicate-id handling in the id tables -/

def dupBodies : List Body := [⟨5⟩, ⟨5⟩]

/-- The MultiBody the constructor builds from two bodies sharing id 5. -/
def dupMB : MultiBody :=
  { bodies_ := dupBodies
    joints_ := []
    pred_ := []
    succ_ := []
    parent_ := [-1, 0]
    Xfrom_ := []
    Xto_ := []
    bodyId2Ind_ := buildTable (dupBodies.map Body.id)
    jointId2Ind_ := buildTable []
    nrParams_ := 0
    nrDof_ := 0 }

/-- Claim C8 is false on the modelled constructor: with two bodies of id 5
at indices 0 < 1, construction succeeds and the id table maps 5 to the
later index 1, not to the first-seen index 0. -/
theorem idTable_first_seen_refuted :
    mkMultiBody dupBodies [] [] [] [-1, 0] [] [] = Except.ok dupMB ∧
    dupMB.sBodyIndexById 5 = Except.ok 1 ∧
    dupMB.sBodyIndexById 5 ≠ Except.ok 0 := by decide

/-- Claim C8 (amended): the id tables are built by iterating bodies and
joints once each, but a later duplicate id silently overwrites the entry
of an earlier one, so a duplicated id resolves to the LAST index at which
it occurs in the input sequence (for two occurrences at i < j: to j, not
to i). -/
theorem idTable_last_write_wins (bodies : List Body) (joints : List Joint)
    (pred succ parent : List Int) (Xfrom Xto : List PTransform)
    (mb : MultiBody)
    (h : mkMultiBody bodies joints pred succ parent Xfrom Xto = Except.ok mb) :
    (∀ d (j : Nat) (hj : j < bodies.length), (bodies.get ⟨j, hj⟩).id = d →
      (∀ k (hk : k < bodies.length), j < k → (bodies.get ⟨k, hk⟩).id ≠ d) →
      mb.sBodyIndexById d = Except.ok (j : Int)) ∧
    (∀ d (j : Nat) (hj : j < joints.length), (joints.get ⟨j, hj⟩).id = d →
      (∀ k (hk : k < joints.length), j < k → (joints.get ⟨k, hk⟩).id ≠ d) →
      mb.sJointIndexById d = Except.ok (j : Int)) := by
  rw [mkMultiBody] at h
  split at h
  case isFalse => exact absurd h (by simp)
  case isTrue =>
      injection h with h
      constructor
      · intro d j hj hd hlast
        have hj' : j < (bodies.map Body.id).length := by simpa using hj
        have hd' : (bodies.map Body.id).get ⟨j, hj'⟩ = d := by simpa using hd
        have hlast' : ∀ k (hk : k < (bodies.map Body.id).length), j < k →
            (bodies.map Body.id).get ⟨k, hk⟩ ≠ d := by
          intro k hk hjk
          have hk2 : k < bodies.length := by simpa using hk
          have := hlast k hk2 hjk
          simpa using this
        have hfind :=
          insertAll_find_last [] (bodies.map Body.id) 0 d j hj' hd' hlast'
        rw [← h]
        show mapAt (buildTable (bodies.map Body.id)) _ = _
        rw [mapAt, buildTable, hfind]
        simp
      · intro d j hj hd hlast
        have hj' : j < (joints.map Joint.id).length := by simpa using hj
        have hd' : (joints.map Joint.id).get ⟨j, hj'⟩ = d := by simpa using hd
        have hlast' : ∀ k (hk : k < (joints.map Joint.id).length), j < k →
            (joints.map Joint.id).get ⟨k, hk⟩ ≠ d := by
          intro k hk hjk
          have hk2 : k < joints.length := by simpa using hk
          have := hlast k hk2 hjk
          simpa using this
        have hfind :=
          insertAll_find_last [] (joints.map Joint.id) 0 d j hj' hd' hlast'
        rw [← h]
        show mapAt (buildTable (joints.map Joint.id)) _ = _
        rw [mapAt, buildTable, hfind]
        simp

theorem idTable_last_write_wins_witness :
    mkMultiBody dupBodies [] [] [] [-1, 0] [] [] = Except.ok dupMB ∧
    dupMB.sBodyIndexById 5 = Except.ok 1 :=
  ⟨by decide,
   (idTable_last_write_wins dupBodies [] [] [] [-1, 0] [] [] dupMB
       (by decide)).1 5 1 (by decide) (by decide)
     (by
       intro k hk h1k
       have h2 : k < 2 := hk
       exact absurd h2 (by omega))⟩

/-! ### Claim C5: error kind of the checked id lookups -/

/-- Claim C5 is false as stated: on scenario 1's MultiBody, the checked id
lookups with the absent id 999 fail with exactly the same error kind
(`std::out_of_range`) as a checked index accessor with the out-of-range
index 3; the code has no distinct UnknownId kind. -/
theorem unknownId_same_error_kind :
    exMB.sBodyIndexById 999 = Except.error RBDynError.stdOutOfRange ∧
    exMB.sJointIndexById 999 = Except.error RBDynError.stdOutOfRange ∧
    exMB.sBody 3 = Except.error RBDynError.stdOutOfRange := by decide

/-- Claim C5 (amended): for every id absent from the body (resp. joint) id
table — whether or not it is present in the other table — the checked
lookup `sBodyIndexById` (resp. `sJointIndexById`) fails, with
`std::out_of_range`, the same single error kind thrown by the checked
index accessors, since `std::unordered_map::at` and `std::vector::at` throw
the same exception type; no distinct UnknownId kind exists in the code. -/
theorem sIndexById_absent_fails (mb : MultiBody) (id : Int) :
    (mapFind mb.bodyId2Ind_ id = none →
        mb.sBodyIndexById id = Except.error RBDynError.stdOutOfRange) ∧
    (mapFind mb.jointId2Ind_ id = none →
        mb.sJointIndexById id = Except.error RBDynError.stdOutOfRange) := by
  constructor
  · intro hb
    show mapAt mb.bodyId2Ind_ id = _
    rw [mapAt, hb]
  · intro hj
    show mapAt mb.jointId2Ind_ id = _
    rw [mapAt, hj]

theorem sIndexById_absent_fails_witness :
    mapFind exMB.bodyId2Ind_ 100 = none ∧
    mapFind exMB.jointId2Ind_ 100 = some 0 ∧
    exMB.sBodyIndexById 100 = Except.error RBDynError.stdOutOfRange ∧
    mapFind exMB.jointId2Ind_ 10 = none ∧
    mapFind exMB.bodyId2Ind_ 10 = some 0 ∧
    exMB.sJointIndexById 10 = Except.error RBDynError.stdOutOfRange :=
  ⟨by decide, by decide,
   (sIndexById_absent_fails exMB 100).1 (by decide),
   by decide, by decide,
   (sIndexById_absent_fails exMB 10).2 (by decide)⟩

/-! ### Claims C4 and C9: out-of-range behavior of the checked accessors -/

/-- Claim C4: for every constructed MultiBody and every int index outside
the valid range of the corresponding collection — in particular the index
equal to the collection length — each checked accessor fails with the
out-of-range error instead of returning a value. -/
theorem sAccessors_out_of_range (mb : MultiBody) (num : Int)
    (hlo : -(2 ^ 31) ≤ num) (hhi : num < 2 ^ 31) (hsz : mb.sizesOK) :
    ((num < 0 ∨ (mb.bodies_.length : Int) ≤ num) →
        mb.sBody num = Except.error RBDynError.stdOutOfRange) ∧
    ((num < 0 ∨ (mb.joints_.length : Int) ≤ num) →
        mb.sJoint num = Except.error RBDynError.stdOutOfRange) ∧
    ((num < 0 ∨ (mb.pred_.length : Int) ≤ num) →
        mb.sPredecessor num = Except.error RBDynError.stdOutOfRange) ∧
    ((num < 0 ∨ (mb.succ_.length : Int) ≤ num) →
        mb.sSuccessor num = Except.error RBDynError.stdOutOfRange) ∧
    ((num < 0 ∨ (mb.parent_.length : Int) ≤ num) →
        mb.sParent num = Except.error RBDynError.stdOutOfRange) ∧
    ((num < 0 ∨ (mb.Xfrom_.length : Int) ≤ num) →
        mb.sTransformFrom num = Except.error RBDynError.stdOutOfRange) ∧
    ((num < 0 ∨ (mb.Xto_.length : Int) ≤ num) →
        mb.sTransformTo num = Except.error RBDynError.stdOutOfRange) := by
  obtain ⟨h1, h2, h3, h4, h5, h6, h7⟩ := hsz
  exact
    ⟨fun h => atInt_err_of_ge _ _ (length_le_toSizeT _ _ hlo hhi h1 h),
     fun h => atInt_err_of_ge _ _ (length_le_toSizeT _ _ hlo hhi h2 h),
     fun h => atInt_err_of_ge _ _ (length_le_toSizeT _ _ hlo hhi h3 h),
     fun h => atInt_err_of_ge _ _ (length_le_toSizeT _ _ hlo hhi h4 h),
     fun h => atInt_err_of_ge _ _ (length_le_toSizeT _ _ hlo hhi h5 h),
     fun h => atInt_err_of_ge _ _ (length_le_toSizeT _ _ hlo hhi h6 h),
     fun h => atInt_err_of_ge _ _ (length_le_toSizeT _ _ hlo hhi h7 h)⟩

theorem sAccessors_out_of_range_witness :
    (-(2 ^ 31) ≤ (3 : Int)) ∧ ((3 : Int) < 2 ^ 31) ∧ exMB.sizesOK ∧
    exMB.sBody 3 = Except.error RBDynError.stdOutOfRange ∧
    exMB.sJoint 3 = Except.error RBDynError.stdOutOfRange ∧
    exMB.sParent 3 = Except.error RBDynError.stdOutOfRange :=
  ⟨by decide, by decide, by decide,
   (sAccessors_out_of_range exMB 3 (by decide) (by decide) (by decide)).1
     (Or.inr (by decide)),
   (sAccessors_out_of_range exMB 3 (by decide) (by decide) (by decide)).2.1
     (Or.inr (by decide)),
   (sAccessors_out_of_range exMB 3 (by decide) (by decide)
       (by decide)).2.2.2.2.1 (Or.inr (by decide))⟩

/-- Claim C9: for every negative int index, each checked accessor fails
with the same out-of-range error as for a too-large index, because the
signed index is converted to an unsigned position of at least
2^64 - 2^31, which exceeds every stored collection's size; the stored data
is never reached. -/
theorem sAccessors_negative_index (mb : MultiBody) (num : Int)
    (hlo : -(2 ^ 31) ≤ num) (hneg : num < 0) (hsz : mb.sizesOK) :
    mb.bodies_.length ≤ toSizeT num ∧ mb.joints_.length ≤ toSizeT num ∧
    mb.pred_.length ≤ toSizeT num ∧ mb.succ_.length ≤ toSizeT num ∧
    mb.parent_.length ≤ toSizeT num ∧ mb.Xfrom_.length ≤ toSizeT num ∧
    mb.Xto_.length ≤ toSizeT num ∧
    mb.sBody num = Except.error RBDynError.stdOutOfRange ∧
    mb.sJoint num = Except.error RBDynError.stdOutOfRange ∧
    mb.sPredecessor num = Except.error RBDynError.stdOutOfRange ∧
    mb.sSuccessor num = Except.error RBDynError.stdOutOfRange ∧
    mb.sParent num = Except.error RBDynError.stdOutOfRange ∧
    mb.sTransformFrom num = Except.error RBDynError.stdOutOfRange ∧
    mb.sTransformTo num = Except.error RBDynError.stdOutOfRange := by
  obtain ⟨h1, h2, h3, h4, h5, h6, h7⟩ := hsz
  have hge := toSizeT_neg_ge num hlo hneg
  have e1 : mb.bodies_.length ≤ toSizeT num := by omega
  have e2 : mb.joints_.length ≤ toSizeT num := by omega
  have e3 : mb.pred_.length ≤ toSizeT num := by omega
  have e4 : mb.succ_.length ≤ toSizeT num := by omega
  have e5 : mb.parent_.length ≤ toSizeT num := by omega
  have e6 : mb.Xfrom_.length ≤ toSizeT num := by omega
  have e7 : mb.Xto_.length ≤ toSizeT num := by omega
  exact ⟨e1, e2, e3, e4, e5, e6, e7,
    atInt_err_of_ge _ _ e1, atInt_err_of_ge _ _ e2, atInt_err_of_ge _ _ e3,
    atInt_err_of_ge _ _ e4, atInt_err_of_ge _ _ e5, atInt_err_of_ge _ _ e6,
    atInt_err_of_ge _ _ e7⟩

theorem sAccessors_negative_index_witness :
    (-(2 ^ 31) ≤ (-1 : Int)) ∧ ((-1 : Int) < 0) ∧ exMB.sizesOK ∧
    exMB.sBody (-1) = Except.error RBDynError.stdOutOfRange ∧
    exMB.sParent (-1) = Except.error RBDynError.stdOutOfRange :=
  ⟨by decide, by decide, by decide,
   (sAccessors_negative_index exMB (-1) (by decide) (by decide)
       (by decide)).2.2.2.2.2.2.2.1,
   (sAccessors_negative_index exMB (-1) (by decide) (by decide)
       (by decide)).2.2.2.2.2.2.2.2.2.2.2.1⟩

/-! ### Claims C3 and C10: agreement of the access paths -/

theorem atInt_toNat (l : List α) (num : Int) (h0 : 0 ≤ num)
    (h1 : num < 2 ^ 64) (h : num.toNat < l.length) :
    atInt l num = Except.ok (l.get ⟨num.toNat, h⟩) ∧
    idxInt l num = some (l.get ⟨num.toNat, h⟩) := by
  have ht : toSizeT num = num.toNat := toSizeT_of_nonneg num h0 h1
  unfold atInt idxInt
  rw [ht, List.get?_eq_get h]
  exact ⟨rfl, rfl⟩

theorem mapAt_of_find (m : List (Int × Int)) (k v : Int)
    (h : mapFind m k = some v) : mapAt m k = Except.ok v := by
  unfold mapAt
  rw [h]

/-- Claim C3: for every index within the range of the corresponding
collection, the checked and the unchecked accessor return identical
results, and for every id present in a table the checked and the unchecked
id lookup return the same index. -/
theorem checked_eq_unchecked (mb : MultiBody) (num id : Int)
    (h0 : 0 ≤ num) (h1 : num < 2 ^ 31) :
    (∀ h : num.toNat < mb.bodies_.length,
        mb.sBody num = Except.ok (mb.bodies_.get ⟨num.toNat, h⟩) ∧
        mb.body num = some (mb.bodies_.get ⟨num.toNat, h⟩)) ∧
    (∀ h : num.toNat < mb.joints_.length,
        mb.sJoint num = Except.ok (mb.joints_.get ⟨num.toNat, h⟩) ∧
        mb.joint num = some (mb.joints_.get ⟨num.toNat, h⟩)) ∧
    (∀ h : num.toNat < mb.pred_.length,
        mb.sPredecessor num = Except.ok (mb.pred_.get ⟨num.toNat, h⟩) ∧
        mb.predecessor num = some (mb.pred_.get ⟨num.toNat, h⟩)) ∧
    (∀ h : num.toNat < mb.succ_.length,
        mb.sSuccessor num = Except.ok (mb.succ_.get ⟨num.toNat, h⟩) ∧
        mb.successor num = some (mb.succ_.get ⟨num.toNat, h⟩)) ∧
    (∀ h : num.toNat < mb.parent_.length,
        mb.sParent num = Except.ok (mb.parent_.get ⟨num.toNat, h⟩) ∧
        mb.parent num = some (mb.parent_.get ⟨num.toNat, h⟩)) ∧
    (∀ h : num.toNat < mb.Xfrom_.length,
        mb.sTransformFrom num = Except.ok (mb.Xfrom_.get ⟨num.toNat, h⟩) ∧
        mb.transformFrom num = some (mb.Xfrom_.get ⟨num.toNat, h⟩)) ∧
    (∀ h : num.toNat < mb.Xto_.length,
        mb.sTransformTo num = Except.ok (mb.Xto_.get ⟨num.toNat, h⟩) ∧
        mb.transformTo num = some (mb.Xto_.get ⟨num.toNat, h⟩)) ∧
    (∀ v, mb.bodyIndexById id = some v →
        mb.sBodyIndexById id = Except.ok v) ∧
    (∀ v, mb.jointIndexById id = some v →
        mb.sJointIndexById id = Except.ok v) := by
  have h64 : num < 2 ^ 64 := lt_trans h1 (by norm_num)
  exact
    ⟨fun h => atInt_toNat _ num h0 h64 h,
     fun h => atInt_toNat _ num h0 h64 h,
     fun h => atInt_toNat _ num h0 h64 h,
     fun h => atInt_toNat _ num h0 h64 h,
     fun h => atInt_toNat _ num h0 h64 h,
     fun h => atInt_toNat _ num h0 h64 h,
     fun h => atInt_toNat _ num h0 h64 h,
     fun v hv => mapAt_of_find _ _ _ hv,
     fun v hv => mapAt_of_find _ _ _ hv⟩

theorem checked_eq_unchecked_witness :
    (0 ≤ (1 : Int)) ∧ ((1 : Int) < 2 ^ 31) ∧
    exMB.sBody 1 = Except.ok ⟨20⟩ ∧ exMB.body 1 = some ⟨20⟩ ∧
    exMB.sBodyIndexById 20 = Except.ok 1 :=
  ⟨by decide, by decide,
   ((checked_eq_unchecked exMB 1 20 (by decide) (by decide)).1 (by decide)).1,
   ((checked_eq_unchecked exMB 1 20 (by decide) (by decide)).1 (by decide)).2,
   (checked_eq_unchecked exMB 1 20 (by decide)
       (by decide)).2.2.2.2.2.2.2.1 1 (by decide)⟩

/-- Claim C10: the full-sequence views are consistent with the counts and
with the per-element accessors: the view lengths equal `nrBodies()` and
`nrJoints()`, and at every in-range index the element of the view equals
the value returned by the per-element accessor. -/
theorem views_consistent (mb : MultiBody) (hsz : mb.sizesOK) :
    mb.bodies.length = mb.nrBodies ∧ mb.joints.length = mb.nrJoints ∧
    (∀ (i : Nat) (h : i < mb.bodies.length),
        mb.body (i : Int) = some (mb.bodies.get ⟨i, h⟩)) ∧
    (∀ (i : Nat) (h : i < mb.joints.length),
        mb.joint (i : Int) = some (mb.joints.get ⟨i, h⟩)) ∧
    (∀ (i : Nat) (h : i < mb.predecessors.length),
        mb.predecessor (i : Int) = some (mb.predecessors.get ⟨i, h⟩)) ∧
    (∀ (i : Nat) (h : i < mb.successors.length),
        mb.successor (i : Int) = some (mb.successors.get ⟨i, h⟩)) ∧
    (∀ (i : Nat) (h : i < mb.parents.length),
        mb.parent (i : Int) = some (mb.parents.get ⟨i, h⟩)) ∧
    (∀ (i : Nat) (h : i < mb.transformsFrom.length),
        mb.transformFrom (i : Int) = some (mb.transformsFrom.get ⟨i, h⟩)) ∧
    (∀ (i : Nat) (h : i < mb.transformsTo.length),
        mb.transformTo (i : Int) = some (mb.transformsTo.get ⟨i, h⟩)) := by
  obtain ⟨h1, h2, h3, h4, h5, h6, h7⟩ := hsz
  exact ⟨rfl, rfl,
    fun i h => idxInt_natCast _ i h1 h,
    fun i h => idxInt_natCast _ i h2 h,
    fun i h => idxInt_natCast _ i h3 h,
    fun i h => idxInt_natCast _ i h4 h,
    fun i h => idxInt_natCast _ i h5 h,
    fun i h => idxInt_natCast _ i h6 h,
    fun i h => idxInt_natCast _ i h7 h⟩

theorem views_consistent_witness :
    exMB.sizesOK ∧
    exMB.bodies.length = exMB.nrBodies ∧
    exMB.body 2 = some (exMB.bodies.get ⟨2, by decide⟩) :=
  ⟨by decide,
   (views_consistent exMB (by decide)).1,
   (views_consistent exMB (by decide)).2.2.1 2 (by decide)⟩

/-! ### Claim C7: all queries are pure and never mutate the state

Each public const method of `MultiBody.h` is modelled as a state
transformer on the object state: it returns its result together with the
(possibly updated) private state.  An unchecked accessor applied out of
range is undefined behavior and yields no defined outcome (`none`). -/

/-- One invocation of a public query method of `MultiBody`. -/
inductive Query where
  | qNrBodies
  | qNrJoints
  | qBodies
  | qJoints
  | qPredecessors
  | qSuccessors
  | qParents
  | qTransformsFrom
  | qTransformsTo
  | qBody (num : Int)
  | qJoint (num : Int)
  | qPredecessor (num : Int)
  | qSuccessor (num : Int)
  | qParent (num : Int)
  | qTransformFrom (num : Int)
  | qTransformTo (num : Int)
  | qBodyIndexById (id : Int)
  | qJointIndexById (id : Int)
  | qNrParams
  | qNrDof
  | qSBody (num : Int)
  | qSJoint (num : Int)
  | qSPredecessor (num : Int)
  | qSSuccessor (num : Int)
  | qSParent (num : Int)
  | qSTransformFrom (num : Int)
  | qSTransformTo (num : Int)
  | qSBodyIndexById (id : Int)
  | qSJointIndexById (id : Int)
deriving DecidableEq

/-- The value returned by a query (a thrown exception is `rErr`). -/
inductive QueryResult where
  | rNat (n : Nat)
  | rInt (n : Int)
  | rBody (b : Body)
  | rJoint (j : Joint)
  | rPT (x : PTransform)
  | rListBody (l : List Body)
  | rListJoint (l : List Joint)
  | rListInt (l : List Int)
  | rListPT (l : List PTransform)
  | rErr (e : RBDynError)
deriving DecidableEq

/-- Run one query against the object state: result plus the state after the
call.  `none` marks undefined behavior (unchecked access out of range). -/
def runQuery (mb : MultiBody) : Query → Option (QueryResult × MultiBody)
  | Query.qNrBodies => some (QueryResult.rNat mb.nrBodies, mb)
  | Query.qNrJoints => some (QueryResult.rNat mb.nrJoints, mb)
  | Query.qBodies => some (QueryResult.rListBody mb.bodies, mb)
  | Query.qJoints => some (QueryResult.rListJoint mb.joints, mb)
  | Query.qPredecessors => some (QueryResult.rListInt mb.predecessors, mb)
  | Query.qSuccessors => some (QueryResult.rListInt mb.successors, mb)
  | Query.qParents => some (QueryResult.rListInt mb.parents, mb)
  | Query.qTransformsFrom => some (QueryResult.rListPT mb.transformsFrom, mb)
  | Query.qTransformsTo => some (QueryResult.rListPT mb.transformsTo, mb)
  | Query.qBody num =>
      match mb.body num with
      | some b => some (QueryResult.rBody b, mb)
      | none => none
  | Query.qJoint num =>
      match mb.joint num with
      | some j => some (QueryResult.rJoint j, mb)
      | none => none
  | Query.qPredecessor num =>
      match mb.predecessor num with
      | some n => some (QueryResult.rInt n, mb)
      | none => none
  | Query.qSuccessor num =>
      match mb.successor num with
      | some n => some (QueryResult.rInt n, mb)
      | none => none
  | Query.qParent num =>
      match mb.parent num with
      | some n => some (QueryResult.rInt n, mb)
      | none => none
  | Query.qTransformFrom num =>
      match mb.transformFrom num with
      | some x => some (QueryResult.rPT x, mb)
      | none => none
  | Query.qTransformTo num =>
      match mb.transformTo num with
      | some x => some (QueryResult.rPT x, mb)
      | none => none
  | Query.qBodyIndexById id =>
      match mb.bodyIndexById id with
      | some n => some (QueryResult.rInt n, mb)
      | none => none
  | Query.qJointIndexById id =>
      match mb.jointIndexById id with
      | some n => some (QueryResult.rInt n, mb)
      | none => none
  | Query.qNrParams => some (QueryResult.rInt mb.nrParams, mb)
  | Query.qNrDof => some (QueryResult.rInt mb.nrDof, mb)
  | Query.qSBody num =>
      match mb.sBody num with
      | Except.ok b => some (QueryResult.rBody b, mb)
      | Except.error e => some (QueryResult.rErr e, mb)
  | Query.qSJoint num =>
      match mb.sJoint num with
      | Except.ok j => some (QueryResult.rJoint j, mb)
      | Except.error e => some (QueryResult.rErr e, mb)
  | Query.qSPredecessor num =>
      match mb.sPredecessor num with
      | Except.ok n => some (QueryResult.rInt n, mb)
      | Except.error e => some (QueryResult.rErr e, mb)
  | Query.qSSuccessor num =>
      match mb.sSuccessor num with
      | Except.ok n => some (QueryResult.rInt n, mb)
      | Except.error e => some (QueryResult.rErr e, mb)
  | Query.qSParent num =>
      match mb.sParent num with
      | Except.ok n => some (QueryResult.rInt n, mb)
      | Except.error e => some (QueryResult.rErr e, mb)
  | Query.qSTransformFrom num =>
      match mb.sTransformFrom num with
      | Except.ok x => some (QueryResult.rPT x, mb)
      | Except.error e => some (QueryResult.rErr e, mb)
  | Query.qSTransformTo num =>
      match mb.sTransformTo num with
      | Except.ok x => some (QueryResult.rPT x, mb)
      | Except.error e => some (QueryResult.rErr e, mb)
  | Query.qSBodyIndexById id =>
      match mb.sBodyIndexById id with
      | Except.ok n => some (QueryResult.rInt n, mb)
      | Except.error e => some (QueryResult.rErr e, mb)
  | Query.qSJointIndexById id =>
      match mb.sJointIndexById id with
      | Except.ok n => some (QueryResult.rInt n, mb)
      | Except.error e => some (QueryResult.rErr e, mb)

/-- Run a sequence of queries, threading the state. -/
def runQueries (mb : MultiBody) (qs : List Query) :
    Option (List QueryResult × MultiBody) :=
  match qs with
  | [] => some ([], mb)
  | q :: rest =>
      match runQuery mb q with
      | none => none
      | some (r, mb') =>
          match runQueries mb' rest with
          | none => none
          | some (rs, mbf) => some (r :: rs, mbf)

theorem runQuery_frame (mb : MultiBody) (q : Query) (r : QueryResult)
    (mb' : MultiBody) (h : runQuery mb q = some (r, mb')) : mb' = mb := by
  cases q <;> simp only [runQuery] at h <;> (try split at h) <;>
    simp only [Option.some.injEq, Prod.mk.injEq, reduceCtorEq] at h <;>
    simp_all

/-- Claim C7: every query operation is pure and leaves the state unchanged:
whenever a sequence of queries runs with defined behavior, the final state
equals the initial state, and each query's result is exactly what that
query returns on the original constructed state, whatever its position in
the sequence. -/
theorem queries_pure_frame (mb : MultiBody) (qs : List Query)
    (rs : List QueryResult) (mbf : MultiBody)
    (h : runQueries mb qs = some (rs, mbf)) :
    mbf = mb ∧ rs.length = qs.length ∧
    ∀ (i : Nat) (hq : i < qs.length) (hr : i < rs.length),
      runQuery mb (qs.get ⟨i, hq⟩) = some (rs.get ⟨i, hr⟩, mb) := by
  induction qs generalizing rs with
  | nil =>
      rw [runQueries] at h
      injection h with h
      injection h with h1 h2
      subst h2
      rw [← h1]
      exact ⟨rfl, rfl, fun i hq => absurd hq (Nat.not_lt_zero i)⟩
  | cons q rest ih =>
      rw [runQueries] at h
      cases hq1 : runQuery mb q with
      | none => rw [hq1] at h; exact absurd h (by simp)
      | some p =>
          obtain ⟨r1, mb1⟩ := p
          have hmb1 : mb1 = mb := runQuery_frame mb q r1 mb1 hq1
          rw [hq1] at h
          dsimp only at h
          cases hq2 : runQueries mb1 rest with
          | none => rw [hq2] at h; exact absurd h (by simp)
          | some p2 =>
              obtain ⟨rs1, mbf1⟩ := p2
              rw [hq2] at h
              dsimp only at h
              injection h with h
              injection h with h1 h2
              subst h2
              subst hmb1
              subst h1
              obtain ⟨ih1, ih2, ih3⟩ := ih rs1 hq2
              refine ⟨ih1, by simpa using ih2, ?_⟩
              intro i hqi hri
              cases i with
              | zero => exact hq1
              | succ i' =>
                  have hqi' : i' < rest.length := Nat.lt_of_succ_lt_succ hqi
                  have hri' : i' < rs1.length := Nat.lt_of_succ_lt_succ hri
                  exact ih3 i' hqi' hri'

theorem queries_pure_frame_witness :
    runQueries exMB
        [Query.qNrBodies, Query.qSBody 1, Query.qSBody 3,
         Query.qSBodyIndexById 20, Query.qNrDof] =
      some ([QueryResult.rNat 3, QueryResult.rBody ⟨20⟩,
             QueryResult.rErr RBDynError.stdOutOfRange, QueryResult.rInt 1,
             QueryResult.rInt 2], exMB) ∧
    exMB = exMB :=
  ⟨by decide,
   (queries_pure_frame exMB
       [Query.qNrBodies, Query.qSBody 1, Query.qSBody 3,
        Query.qSBodyIndexById 20, Query.qNrDof]
       [QueryResult.rNat 3, QueryResult.rBody ⟨20⟩,
        QueryResult.rErr RBDynError.stdOutOfRange, QueryResult.rInt 1,
        QueryResult.rInt 2] exMB (by decide)).1⟩
